import Mathlib

/-!
The `netbox_ip_address` resource of terraform-provider-netbox: a shallow embedding of
`netbox/resource_netbox_ip_address.go`.

* `strconv`    : `ParseInt(s, 10, 64)` and `FormatInt(i, 10)` of the Go standard library.
* `runtime`    : Go error values, `errors.As` and `runtime.APIError` of go-openapi.
* `models`     : the payload records of go-netbox (`WritableIPAddress`, `IPAddress`).
* `validation` : `validation.StringInSlice` of the Terraform plugin SDK.
* `netbox`     : the resource itself: schema, Create, Read, Update, Delete.

Go functions mutate `*schema.ResourceData` in place and talk to a remote service; here every
function takes the resource data and a `World` (remote state plus the log of IPAM requests issued
so far) and returns an `Exec`: what the Go function returned (or that it panicked), the resource
data afterwards and the world afterwards.
-/

/-! ## strconv -/

namespace strconv

/-- The two sentinel errors carried by `*strconv.NumError`. -/
inductive NumError where
  | ErrSyntax
  | ErrRange
  deriving DecidableEq, Repr

/-- The ASCII digit for `d < 10`. -/
def digitChar (d : Nat) : Char := Char.ofNat (48 + d)

/-- Decimal digits of `u`, most significant first, pushed in front of `acc`
(the digit loop of `formatBits`, one digit per step). -/
def formatBitsAux : Nat → Nat → List Char → List Char
  | 0, _, acc => acc
  | fuel + 1, u, acc =>
    if u / 10 = 0 then digitChar (u % 10) :: acc
    else formatBitsAux fuel (u / 10) (digitChar (u % 10) :: acc)

/-- Base 10 `formatBits(nil, u, 10, neg, false)`: the digits of `u`, after a minus sign when
`neg`. -/
def formatBits (u : Nat) (neg : Bool) : List Char :=
  let digits := formatBitsAux (u + 1) u []
  if neg then '-' :: digits else digits

/-- Base 10 `strconv.FormatInt(i, 10)`. -/
def FormatInt (i : Int) : String :=
  String.mk (formatBits i.natAbs (decide (i < 0)))

/-- The byte loop of `strconv.ParseUint(s, 10, 64)`; `n` is the `uint64` accumulator.
A byte that is not a decimal digit is a syntax error with value 0 (letters are digits `≥ 10`, so
not below the base; the underscore is only accepted for base 0). Overflow stops the loop at once
with the maximal value and a range error. -/
def parseUintLoop : List Char → Nat → Nat × Option NumError
  | [], n => (n, none)
  | c :: cs, n =>
    if 48 ≤ c.toNat ∧ c.toNat ≤ 57 then
      if n ≥ (2 ^ 64 - 1) / 10 + 1 then (2 ^ 64 - 1, some NumError.ErrRange)
      else
        let n10 := n * 10 % 2 ^ 64
        let n1 := (n10 + (c.toNat - 48)) % 2 ^ 64
        if n1 < n10 ∨ n1 > 2 ^ 64 - 1 then (2 ^ 64 - 1, some NumError.ErrRange)
        else parseUintLoop cs n1
    else (0, some NumError.ErrSyntax)

/-- Base 10, 64 bit `strconv.ParseUint`. -/
def ParseUint (s : List Char) : Nat × Option NumError :=
  match s with
  | [] => (0, some NumError.ErrSyntax)
  | _ => parseUintLoop s 0

/-- Base 10, 64 bit `strconv.ParseInt(s, 10, 64)`: the value and the error, both of which Go
returns. On a syntax error the value is 0; on a range error it is the nearest `int64` bound. -/
def ParseInt (s : String) : Int × Option NumError :=
  match s.toList with
  | [] => (0, some NumError.ErrSyntax)
  | c :: rest =>
    let neg : Bool := c = '-'
    let body := if c = '+' ∨ c = '-' then rest else c :: rest
    let r := ParseUint body
    if r.2 = some NumError.ErrSyntax then (0, r.2)
    else if neg = false ∧ r.1 ≥ 2 ^ 63 then (2 ^ 63 - 1, some NumError.ErrRange)
    else if neg = true ∧ r.1 > 2 ^ 63 then (-(2 ^ 63), some NumError.ErrRange)
    else (if neg then -(r.1 : Int) else (r.1 : Int), none)

end strconv

/-- The values of Go's `int64`. -/
abbrev isInt64 (n : Int) : Prop := -(2 ^ 63) ≤ n ∧ n < 2 ^ 63

/-! ## go-openapi runtime errors -/

namespace runtime

/-- The dynamic type of `APIError.Response` (an `interface{}`): either a
`runtime.ClientResponse`, whose `Code()` is the HTTP status, or a value of another type. -/
inductive Response where
  | clientResponse (code : Int)
  | other (dump : String)
  deriving DecidableEq, Repr

/-- The struct `runtime.APIError`. -/
structure APIError where
  OperationName : String
  Response : Response
  Code : Int
  deriving DecidableEq, Repr

/-- Go `error` values by dynamic type: a `*runtime.APIError`, an error that wraps another one
(`Unwrap`), or any other error. -/
inductive GoError where
  | plain (msg : String)
  | api (e : APIError)
  | wrapped (msg : String) (inner : GoError)
  deriving DecidableEq, Repr

/-- The call `errors.As(err, &apiError)` with `apiError` of type `*runtime.APIError`: the first
API error in the `Unwrap` chain of `err`. -/
def errorsAs : GoError → Option APIError
  | GoError.plain _ => none
  | GoError.api e => some e
  | GoError.wrapped _ inner => errorsAs inner

end runtime

/-! ## go-netbox models -/

namespace models

/-- The struct `models.NestedTag`. -/
structure NestedTag where
  Name : String
  Slug : String
  deriving DecidableEq, Repr

/-- The struct `models.WritableIPAddress`, the request body of create and update. An empty
`AssignedObjectType` and a nil `AssignedObjectID` are left out of the request. -/
structure WritableIPAddress where
  Address : String
  Role : String
  Description : String
  DNSName : String
  Status : String
  Tags : List NestedTag
  AssignedObjectType : String
  AssignedObjectID : Option Int
  deriving DecidableEq, Repr

/-- The struct `models.IPAddressStatus` behind the pointer `IPAddress.Status`. -/
structure IPAddressStatus where
  Label : String
  Value : String
  deriving DecidableEq, Repr

/-- The struct `models.IPAddressRole` behind the pointer `IPAddress.Role`. -/
structure IPAddressRole where
  Label : String
  Value : String
  deriving DecidableEq, Repr

/-- The struct behind `IPAddress.AssignedObject`. -/
structure AssignedObject where
  ID : Int
  deriving DecidableEq, Repr

/-- The struct `models.IPAddress`, the response body; the fields the resource reads.
`AssignedObject`, `Status` and `Role` are pointers to structs and may be nil. String pointers are
modelled by their value, the nil pointer by the empty string, which is what `d.Set` stores for
it. -/
structure IPAddress where
  ID : Int
  Address : String
  Status : Option IPAddressStatus
  Role : Option IPAddressRole
  Description : String
  DNSName : String
  AssignedObject : Option AssignedObject
  Tags : List NestedTag
  deriving DecidableEq, Repr

end models

/-! ## SDK validation helpers -/

namespace validation

/-- The validator `validation.StringInSlice(valid, ignoreCase)` applied to the value `v` of the
attribute `k`: the list of errors (it never warns). `equalFold` stands for `strings.EqualFold`. -/
def StringInSlice (valid : List String) (ignoreCase : Bool)
    (equalFold : String → String → Bool) (v : String) (k : String) : List String :=
  if valid.any (fun str => v == str || (ignoreCase && equalFold v str)) then []
  else ["expected " ++ k ++ " to be one of [" ++ " ".intercalate valid ++ "], got " ++ v]

end validation

/-! ## The resource -/

namespace netbox

open runtime models

/-- The attributes of the resource held by `*schema.ResourceData`, with the identifier.
`interface_id` is `none` while the attribute is unset; `tags` is a `schema.Set` of strings. -/
structure ResourceData where
  Id : String
  ip_address : String
  interface_id : Option Int
  role : String
  dns_name : String
  description : String
  status : String
  tags : Finset String
  deriving DecidableEq

/-- The call `d.GetOk("interface_id")`: the value and whether the attribute has been set to a
non-zero value (the SDK compares the value with the zero value of the attribute's type). -/
def ResourceData.GetOk_interface_id (d : ResourceData) : Int × Bool :=
  match d.interface_id with
  | some v => (v, decide (v ≠ 0))
  | none => (0, false)

/-- The IPAM requests the resource sends, with their parameters. -/
inductive Call where
  | create (data : WritableIPAddress)
  | read (id : Int)
  | update (id : Int) (data : WritableIPAddress)
  | delete (id : Int)
  deriving DecidableEq, Repr

/-- The collaborators behind `m`: the four IPAM operations of `client.NetBoxAPI` used by the
resource, each a transition of the remote state `σ` with its response, and the tag helper of this
provider, which is given the API and the tag set and returns both a tag list and an error. -/
structure Env (σ : Type) where
  IpamIPAddressesCreate : WritableIPAddress → σ → Except GoError IPAddress × σ
  IpamIPAddressesRead : Int → σ → Except GoError IPAddress × σ
  IpamIPAddressesUpdate : Int → WritableIPAddress → σ → Except GoError IPAddress × σ
  IpamIPAddressesDelete : Int → σ → Option GoError × σ
  getNestedTagListFromResourceDataSet : Finset String → σ → (List NestedTag × Option GoError) × σ

/-- The remote state and the IPAM requests issued so far, oldest first. -/
structure World (σ : Type) where
  remote : σ
  calls : List Call

/-- How a Go function of type `func(...) error` ends: it returns an error (or nil), or panics. -/
inductive Outcome where
  | returned (err : Option GoError)
  | panicked
  deriving DecidableEq, Repr

/-- The result of running one CRUD function. -/
structure Exec (σ : Type) where
  result : Outcome
  d : ResourceData
  w : World σ

/-- Modelled from the spec: `getTagListFromNestedTagList` of this provider, whose source file is
not part of the sources at hand; a pure projection that extracts the name of each reference. -/
def getTagListFromNestedTagList (refs : List NestedTag) : List String :=
  refs.map (fun t => t.Name)

/-- The three ways the error branch of Read can go. -/
inductive ReadErrorClass where
  | NotFound
  | Other
  | Panic
  deriving DecidableEq, Repr

/-- The error branch of `resourceNetboxIPAddressRead` (lines 96 to 105): `errors.As` searches the
chain of `err`; on success `err` itself is asserted to be a `*runtime.APIError` and its `Response`
to be a `runtime.ClientResponse`, both with the single-value form, which panics on a mismatch. -/
def classifyReadError (err : GoError) : ReadErrorClass :=
  match errorsAs err with
  | some _ =>
    match err with
    | GoError.api e =>
      match e.Response with
      | Response.clientResponse errorcode =>
        if errorcode = 404 then ReadErrorClass.NotFound else ReadErrorClass.Other
      | Response.other _ => ReadErrorClass.Panic
    | _ => ReadErrorClass.Panic
  | none => ReadErrorClass.Other

/-- The call `d.Set("role", res.GetPayload().Role)` of line 116, whose argument is the whole
`*models.IPAddressRole`: a nil pointer removes the attribute; a pointer to a struct cannot be
stored in a string attribute, so `Set` returns an error, which the resource drops, and the
attribute keeps its value. -/
def setRole (d : ResourceData) (role : Option IPAddressRole) : ResourceData :=
  match role with
  | some _ => d
  | none => { d with role := "" }

/-- The function `resourceNetboxIPAddressRead`. -/
def resourceNetboxIPAddressRead {σ : Type} (m : Env σ) (d : ResourceData) (w : World σ) :
    Exec σ :=
  let id := (strconv.ParseInt d.Id).1
  let r := m.IpamIPAddressesRead id w.remote
  let w1 : World σ := ⟨r.2, w.calls ++ [Call.read id]⟩
  match r.1 with
  | Except.error err =>
    match classifyReadError err with
    | ReadErrorClass.NotFound => ⟨Outcome.returned none, { d with Id := "" }, w1⟩
    | ReadErrorClass.Other => ⟨Outcome.returned (some err), d, w1⟩
    | ReadErrorClass.Panic => ⟨Outcome.panicked, d, w1⟩
  | Except.ok res =>
    let d1 : ResourceData :=
      match res.AssignedObject with
      | some o => { d with interface_id := some o.ID }
      | none => { d with interface_id := none }
    let d2 : ResourceData := { d1 with ip_address := res.Address }
    match res.Status with
    | none => ⟨Outcome.panicked, d2, w1⟩
    | some st =>
      let d3 : ResourceData := setRole { d2 with status := st.Value } res.Role
      ⟨Outcome.returned none,
        { d3 with
          description := res.Description
          dns_name := res.DNSName
          tags := (getTagListFromNestedTagList res.Tags).toFinset },
        w1⟩

/-- Modelled from the spec: `int64ToPtr` of this provider, whose source file is not part of the
sources at hand; a pointer to its argument, so that the assigned-object id of the payload is the
interface id. -/
def int64ToPtr (i : Int) : Option Int := some i

/-- The request body built by `resourceNetboxIPAddressUpdate` (lines 127 to 147). -/
def updateData (d : ResourceData) (tags : List NestedTag) : WritableIPAddress :=
  let ok := d.GetOk_interface_id
  { Status := d.status
    Role := d.role
    Description := d.description
    DNSName := d.dns_name
    Address := d.ip_address
    AssignedObjectType := if ok.2 then "virtualization.vminterface" else ""
    AssignedObjectID := if ok.2 then int64ToPtr ok.1 else none
    Tags := tags }

/-- The function `resourceNetboxIPAddressUpdate`. -/
def resourceNetboxIPAddressUpdate {σ : Type} (m : Env σ) (d : ResourceData) (w : World σ) :
    Exec σ :=
  let id := (strconv.ParseInt d.Id).1
  let t := m.getNestedTagListFromResourceDataSet d.tags w.remote
  let data := updateData d t.1.1
  let r := m.IpamIPAddressesUpdate id data t.2
  let w1 : World σ := ⟨r.2, w.calls ++ [Call.update id data]⟩
  match r.1 with
  | Except.error err => ⟨Outcome.returned (some err), d, w1⟩
  | Except.ok _ => resourceNetboxIPAddressRead m d w1

/-- The request body built by `resourceNetboxIPAddressCreate` (lines 67 to 75). -/
def createData (d : ResourceData) (tags : List NestedTag) : WritableIPAddress :=
  { Address := d.ip_address
    Role := d.role
    Description := d.description
    DNSName := d.dns_name
    Status := d.status
    Tags := tags
    AssignedObjectType := ""
    AssignedObjectID := none }

/-- The function `resourceNetboxIPAddressCreate`. -/
def resourceNetboxIPAddressCreate {σ : Type} (m : Env σ) (d : ResourceData) (w : World σ) :
    Exec σ :=
  let t := m.getNestedTagListFromResourceDataSet d.tags w.remote
  let data := createData d t.1.1
  let r := m.IpamIPAddressesCreate data t.2
  let w1 : World σ := ⟨r.2, w.calls ++ [Call.create data]⟩
  match r.1 with
  | Except.error err => ⟨Outcome.returned (some err), d, w1⟩
  | Except.ok res =>
    resourceNetboxIPAddressUpdate m { d with Id := strconv.FormatInt res.ID } w1

/-- The function `resourceNetboxIPAddressDelete`. -/
def resourceNetboxIPAddressDelete {σ : Type} (m : Env σ) (d : ResourceData) (w : World σ) :
    Exec σ :=
  let id := (strconv.ParseInt d.Id).1
  let r := m.IpamIPAddressesDelete id w.remote
  let w1 : World σ := ⟨r.2, w.calls ++ [Call.delete id]⟩
  match r.1 with
  | some err => ⟨Outcome.returned (some err), d, w1⟩
  | none => ⟨Outcome.returned none, d, w1⟩

/-- The part of `schema.Resource` returned by `resourceNetboxIPAddress`: the four CRUD functions
and the `ValidateFunc` of the two attributes that declare one. -/
structure Resource (σ : Type) where
  Create : Env σ → ResourceData → World σ → Exec σ
  Read : Env σ → ResourceData → World σ → Exec σ
  Update : Env σ → ResourceData → World σ → Exec σ
  Delete : Env σ → ResourceData → World σ → Exec σ
  ip_address_ValidateFunc : String → String → List String
  status_ValidateFunc : String → String → List String

/-- The function `resourceNetboxIPAddress`. `IsCIDR` stands for `validation.IsCIDR` and
`equalFold` for `strings.EqualFold`, both of libraries outside this provider; a `ValidateFunc`
takes the value and the attribute key and returns the errors. -/
def resourceNetboxIPAddress {σ : Type} (IsCIDR : String → String → List String)
    (equalFold : String → String → Bool) : Resource σ :=
  { Create := resourceNetboxIPAddressCreate
    Read := resourceNetboxIPAddressRead
    Update := resourceNetboxIPAddressUpdate
    Delete := resourceNetboxIPAddressDelete
    ip_address_ValidateFunc := IsCIDR
    status_ValidateFunc :=
      validation.StringInSlice ["active", "reserved", "deprecated", "dhcp"] false equalFold }

/-- What the SDK does with a configuration for a new resource. -/
inductive Applied (σ : Type) where
  | rejected (diagnostics : List String) (d : ResourceData) (w : World σ)
  | ran (e : Exec σ)

/-- The SDK's order of operations for a new resource: every `ValidateFunc` of the schema runs on
the configured value; `Create` is invoked only when none of them reported an error, otherwise the
diagnostics are returned and the resource data and the remote are left as they were. -/
def validateThenCreate {σ : Type} (res : Resource σ) (m : Env σ) (d : ResourceData)
    (w : World σ) : Applied σ :=
  let diagnostics := res.ip_address_ValidateFunc d.ip_address "ip_address" ++
    res.status_ValidateFunc d.status "status"
  if diagnostics = [] then Applied.ran (res.Create m d w)
  else Applied.rejected diagnostics d w

/-! ### Remote services to run the resource against -/

/-- A remote that answers every request with a fixed response and has no state. -/
def scripted (create read update : Except GoError IPAddress) (delete : Option GoError)
    (tags : List NestedTag × Option GoError) : Env Unit :=
  { IpamIPAddressesCreate := fun _ _ => (create, ())
    IpamIPAddressesRead := fun _ _ => (read, ())
    IpamIPAddressesUpdate := fun _ _ _ => (update, ())
    IpamIPAddressesDelete := fun _ _ => (delete, ())
    getNestedTagListFromResourceDataSet := fun _ _ => (tags, ()) }

/-- The state of a faithful remote store: the next identifier to assign and the records held,
newest first. -/
structure Store where
  nextID : Int
  rows : List IPAddress
  deriving DecidableEq, Repr

/-- The record with identifier `id`, if the store holds one. -/
def Store.lookup (s : Store) (id : Int) : Option IPAddress :=
  s.rows.find? (fun r => decide (r.ID = id))

/-- The record the store keeps for a request body: the status and the role become the structs of
the response model, an empty role the nil pointer. -/
def storeRecord (id : Int) (data : WritableIPAddress) : IPAddress :=
  { ID := id
    Address := data.Address
    Status := some ⟨data.Status, data.Status⟩
    Role := if data.Role = "" then none else some ⟨data.Role, data.Role⟩
    Description := data.Description
    DNSName := data.DNSName
    AssignedObject := data.AssignedObjectID.map (fun n => ⟨n⟩)
    Tags := data.Tags }

/-- The response of the remote for an identifier it does not hold: an API error whose response
is a client response with status 404. -/
def notFound : GoError :=
  GoError.api ⟨"unknown error", Response.clientResponse 404, 404⟩

/-- The elements of a tag set in increasing order. -/
def sortedNames (S : Finset String) : List String :=
  Quot.liftOn S.val (fun l => l.insertionSort (fun a b => a ≤ b)) (fun _ _ h =>
    List.eq_of_perm_of_sorted
      ((List.perm_insertionSort _ _).trans (h.trans (List.perm_insertionSort _ _).symm))
      (List.sorted_insertionSort _ _) (List.sorted_insertionSort _ _))

/-- A faithful remote store: create assigns the next identifier and stores the payload, update
fully replaces the stored record, read returns the stored record, delete removes it, requests for
an identifier the store does not hold are answered with `notFound`, and tag resolution succeeds
with one reference per name. -/
def faithfulStore : Env Store :=
  { IpamIPAddressesCreate := fun data s =>
      (Except.ok (storeRecord s.nextID data),
        { nextID := s.nextID + 1, rows := storeRecord s.nextID data :: s.rows })
    IpamIPAddressesRead := fun id s =>
      match s.lookup id with
      | some r => (Except.ok r, s)
      | none => (Except.error notFound, s)
    IpamIPAddressesUpdate := fun id data s =>
      match s.lookup id with
      | some _ =>
        (Except.ok (storeRecord id data),
          { s with rows := s.rows.map (fun r => if r.ID = id then storeRecord id data else r) })
      | none => (Except.error notFound, s)
    IpamIPAddressesDelete := fun id s =>
      match s.lookup id with
      | some _ => (none, { s with rows := s.rows.filter (fun r => decide (r.ID ≠ id)) })
      | none => (some notFound, s)
    getNestedTagListFromResourceDataSet := fun names s =>
      (((sortedNames names).map (fun n => ⟨n, n⟩), none), s) }

/-- The same collaborators, except that the tag helper reports no error. -/
def dropTagError {σ : Type} (m : Env σ) : Env σ :=
  { m with
    getNestedTagListFromResourceDataSet := fun names s =>
      (((m.getNestedTagListFromResourceDataSet names s).1.1, none),
        (m.getNestedTagListFromResourceDataSet names s).2) }

/-- A state that holds nothing but an identifier, as after an import. -/
def blankData (id : String) : ResourceData :=
  { Id := id
    ip_address := ""
    interface_id := none
    role := ""
    dns_name := ""
    description := ""
    status := ""
    tags := ∅ }

/-- A desired state used in the examples: an address with two tags and no interface binding. -/
def exampleData : ResourceData :=
  { Id := ""
    ip_address := "10.0.0.5/24"
    interface_id := none
    role := ""
    dns_name := "host.example.org"
    description := "uplink"
    status := "active"
    tags := {"prod", "core"} }

/-- A record as the remote returns it, used in the examples. -/
def exampleRecord : IPAddress :=
  { ID := 7
    Address := "10.0.0.5/24"
    Status := some ⟨"Active", "active"⟩
    Role := some ⟨"VIP", "vip"⟩
    Description := "uplink"
    DNSName := "host.example.org"
    AssignedObject := some ⟨42⟩
    Tags := [⟨"core", "core"⟩, ⟨"prod", "prod"⟩] }

end netbox

/-! ## Facts about `strconv` -/

namespace strconv

theorem digitChar_toNat (d : Nat) (h : d < 10) : (digitChar d).toNat = 48 + d := by
  interval_cases d <;> rfl

theorem formatBitsAux_acc (fuel : Nat) : ∀ (u : Nat) (acc : List Char),
    formatBitsAux fuel u acc = formatBitsAux fuel u [] ++ acc := by
  induction fuel with
  | zero => intro u acc; simp [formatBitsAux]
  | succ k ih =>
    intro u acc
    unfold formatBitsAux
    by_cases h : u / 10 = 0
    · simp [h]
    · simp only [h, if_false]
      rw [ih (u / 10) (digitChar (u % 10) :: acc), ih (u / 10) [digitChar (u % 10)]]
      simp

theorem parseUintLoop_digit (d n : Nat) (rest : List Char) (hd : d < 10)
    (hn : n * 10 + d < 2 ^ 64) :
    parseUintLoop (digitChar d :: rest) n = parseUintLoop rest (n * 10 + d) := by
  have hc := digitChar_toNat d hd
  have h1 : n * 10 % 2 ^ 64 = n * 10 := Nat.mod_eq_of_lt (by omega)
  have h2 : (n * 10 + d) % 2 ^ 64 = n * 10 + d := Nat.mod_eq_of_lt hn
  have h3 : ¬ (n ≥ (2 ^ 64 - 1) / 10 + 1) := by
    norm_num at hn ⊢; omega
  rw [parseUintLoop]
  simp only [hc, h1]
  rw [if_pos (by omega), if_neg h3]
  have h4 : 48 + d - 48 = d := by omega
  simp only [h4, h2]
  rw [if_neg (by norm_num at hn ⊢; omega)]

theorem parseUintLoop_formatBitsAux (fuel : Nat) : ∀ (u : Nat) (rest : List Char),
    u < 10 ^ fuel → u < 2 ^ 64 →
    parseUintLoop (formatBitsAux fuel u [] ++ rest) 0 = parseUintLoop rest u := by
  induction fuel with
  | zero => intro u rest h _; simp at h; subst h; simp [formatBitsAux]
  | succ k ih =>
    intro u rest hu h64
    unfold formatBitsAux
    by_cases h : u / 10 = 0
    · simp only [h, if_true]
      have hlt : u < 10 := by omega
      have := parseUintLoop_digit (u % 10) 0 rest (Nat.mod_lt _ (by norm_num)) (by omega)
      simp only [List.cons_append, List.nil_append]
      rw [this]
      congr 1
      omega
    · simp only [h, if_false]
      rw [formatBitsAux_acc, List.append_assoc]
      have hk : u / 10 < 10 ^ k := by
        rw [pow_succ] at hu
        exact Nat.div_lt_of_lt_mul (by rw [Nat.mul_comm]; exact hu)
      rw [ih (u / 10) _ hk (by omega)]
      simp only [List.cons_append, List.nil_append]
      rw [parseUintLoop_digit (u % 10) (u / 10) rest (Nat.mod_lt _ (by norm_num)) (by omega)]
      congr 1
      omega

theorem formatBitsAux_ne_nil (fuel u : Nat) : formatBitsAux (fuel + 1) u [] ≠ [] := by
  unfold formatBitsAux
  by_cases h : u / 10 = 0
  · simp [h]
  · simp only [h, if_false]
    rw [formatBitsAux_acc]
    simp

theorem formatBitsAux_digits (fuel : Nat) : ∀ (u : Nat) (c : Char),
    c ∈ formatBitsAux fuel u [] → 48 ≤ c.toNat ∧ c.toNat ≤ 57 := by
  induction fuel with
  | zero => intro u c h; simp [formatBitsAux] at h
  | succ k ih =>
    intro u c
    unfold formatBitsAux
    have hd := digitChar_toNat (u % 10) (Nat.mod_lt _ (by norm_num))
    have hm : u % 10 < 10 := Nat.mod_lt _ (by norm_num)
    by_cases h : u / 10 = 0
    · simp only [h, if_true, List.mem_singleton]
      intro hc; subst hc; omega
    · simp only [h, if_false]
      rw [formatBitsAux_acc]
      simp only [List.mem_append, List.mem_singleton]
      rintro (hc | hc)
      · exact ih _ _ hc
      · subst hc; omega

theorem ParseUint_formatBitsAux (u : Nat) (h64 : u < 2 ^ 64) :
    ParseUint (formatBitsAux (u + 1) u []) = (u, none) := by
  have hne := formatBitsAux_ne_nil u u
  have h := parseUintLoop_formatBitsAux (u + 1) u [] (Nat.lt_pow_self (by norm_num) _ |>.trans_le
    (Nat.pow_le_pow_right (by norm_num) (Nat.le_succ _))) h64
  simp only [List.append_nil] at h
  unfold ParseUint
  split
  · exact absurd (by assumption) hne
  · rw [h]; rfl

/-- Parsing the decimal rendering of an `int64` gives the number back, without error. -/
theorem ParseInt_FormatInt (n : Int) (h : isInt64 n) :
    ParseInt (FormatInt n) = (n, none) := by
  obtain ⟨hlo, hhi⟩ := h
  unfold ParseInt FormatInt formatBits
  simp only [String.toList]
  by_cases hneg : n < 0
  · have hu : n.natAbs < 2 ^ 64 := by omega
    simp only [hneg, decide_True, if_true]
    have hp := ParseUint_formatBitsAux n.natAbs hu
    have h3 : ¬ (9223372036854775808 < n.natAbs) := by omega
    simp [hp, h3, abs_of_neg hneg]
  · have hu : n.natAbs < 2 ^ 64 := by omega
    simp only [hneg, decide_False]
    have hp := ParseUint_formatBitsAux n.natAbs hu
    have hne := formatBitsAux_ne_nil n.natAbs n.natAbs
    have hdig := formatBitsAux_digits (n.natAbs + 1) n.natAbs
    cases hl : formatBitsAux (n.natAbs + 1) n.natAbs [] with
    | nil => exact absurd hl hne
    | cons c rest =>
      have hc := hdig c (by rw [hl]; simp)
      have h1 : c ≠ '+' := by rintro rfl; revert hc; decide
      have h2 : c ≠ '-' := by rintro rfl; revert hc; decide
      rw [hl] at hp
      have h3 : ¬ (9223372036854775808 ≤ n.natAbs) := by omega
      simp [h1, h2, hp, h3, abs_of_nonneg (not_lt.mp hneg)]

/-- The value `ParseInt` returns next to an error: 0 for a syntax error, an `int64` bound for a
range error. -/
theorem ParseInt_error_value (s : String) :
    ((ParseInt s).2 = some NumError.ErrSyntax → (ParseInt s).1 = 0) ∧
    ((ParseInt s).2 = some NumError.ErrRange →
      (ParseInt s).1 = 2 ^ 63 - 1 ∨ (ParseInt s).1 = -(2 ^ 63)) := by
  unfold ParseInt
  split
  · simp
  · simp only
    split_ifs <;> simp_all

end strconv

/-! ## Facts about the resource -/

namespace netbox

open runtime models

/-- Read issues exactly one request, a read addressed to the value parsed from the identifier. -/
theorem read_calls {σ : Type} (m : Env σ) (d : ResourceData) (w : World σ) :
    (resourceNetboxIPAddressRead m d w).w.calls =
      w.calls ++ [Call.read (strconv.ParseInt d.Id).1] := by
  unfold resourceNetboxIPAddressRead
  simp only
  split
  · split <;> rfl
  · split <;> rfl

/-- The first request of Update is the update, addressed to the value parsed from the identifier
and carrying the tag list the helper returned. -/
theorem update_calls {σ : Type} (m : Env σ) (d : ResourceData) (w : World σ) :
    ∃ rest, (resourceNetboxIPAddressUpdate m d w).w.calls =
      w.calls ++ Call.update (strconv.ParseInt d.Id).1
        (updateData d (m.getNestedTagListFromResourceDataSet d.tags w.remote).1.1) :: rest := by
  unfold resourceNetboxIPAddressUpdate
  simp only
  split
  · exact ⟨[], rfl⟩
  · refine ⟨[Call.read (strconv.ParseInt d.Id).1], ?_⟩
    rw [read_calls]
    simp

/-- The first request of Create is the create, carrying the tag list the helper returned. -/
theorem create_calls {σ : Type} (m : Env σ) (d : ResourceData) (w : World σ) :
    ∃ rest, (resourceNetboxIPAddressCreate m d w).w.calls =
      w.calls ++ Call.create
        (createData d (m.getNestedTagListFromResourceDataSet d.tags w.remote).1.1) :: rest := by
  unfold resourceNetboxIPAddressCreate
  simp only
  split
  · exact ⟨[], rfl⟩
  · rename_i res _
    obtain ⟨rest, h⟩ := update_calls m { d with Id := strconv.FormatInt res.ID }
      ⟨(m.IpamIPAddressesCreate
          (createData d (m.getNestedTagListFromResourceDataSet d.tags w.remote).1.1)
          (m.getNestedTagListFromResourceDataSet d.tags w.remote).2).2,
        w.calls ++ [Call.create
          (createData d (m.getNestedTagListFromResourceDataSet d.tags w.remote).1.1)]⟩
    rw [h]
    exact ⟨_, by simp; rfl⟩

/-- Read on success for an object that has a status, as one equation: every attribute comes
from the object except role, which is removed when the object has no role and keeps its value
when it has one. -/
theorem read_ok {σ : Type} (m : Env σ) (d : ResourceData) (w : World σ)
    (r : IPAddress) (st : IPAddressStatus) (σ1 : σ)
    (hread : m.IpamIPAddressesRead (strconv.ParseInt d.Id).1 w.remote = (Except.ok r, σ1))
    (hstatus : r.Status = some st) :
    resourceNetboxIPAddressRead m d w =
      ⟨Outcome.returned none,
        { Id := d.Id
          ip_address := r.Address
          interface_id := r.AssignedObject.map (fun o => o.ID)
          role := if r.Role = none then "" else d.role
          dns_name := r.DNSName
          description := r.Description
          status := st.Value
          tags := (r.Tags.map (fun t => t.Name)).toFinset },
        ⟨σ1, w.calls ++ [Call.read (strconv.ParseInt d.Id).1]⟩⟩ := by
  unfold resourceNetboxIPAddressRead
  simp only [hread, hstatus, getTagListFromNestedTagList, setRole]
  cases r.AssignedObject <;> cases r.Role <;> simp

/-- Read panics on an object without a status: line 115 dereferences the nil pointer. -/
theorem read_nil_status {σ : Type} (m : Env σ) (d : ResourceData) (w : World σ)
    (r : IPAddress) (σ1 : σ)
    (hread : m.IpamIPAddressesRead (strconv.ParseInt d.Id).1 w.remote = (Except.ok r, σ1))
    (hstatus : r.Status = none) :
    (resourceNetboxIPAddressRead m d w).result = Outcome.panicked := by
  unfold resourceNetboxIPAddressRead
  simp only [hread, hstatus]

/-- Create after a successful remote create, as one equation. -/
theorem create_ok {σ : Type} (m : Env σ) (d : ResourceData) (w : World σ)
    (res : IPAddress) (σ1 : σ)
    (hcreate : m.IpamIPAddressesCreate
        (createData d (m.getNestedTagListFromResourceDataSet d.tags w.remote).1.1)
        (m.getNestedTagListFromResourceDataSet d.tags w.remote).2 = (Except.ok res, σ1)) :
    resourceNetboxIPAddressCreate m d w =
      resourceNetboxIPAddressUpdate m { d with Id := strconv.FormatInt res.ID }
        ⟨σ1, w.calls ++ [Call.create
          (createData d (m.getNestedTagListFromResourceDataSet d.tags w.remote).1.1)]⟩ := by
  unfold resourceNetboxIPAddressCreate
  simp only [hcreate]

/-- Update after a successful remote update, as one equation. -/
theorem update_ok {σ : Type} (m : Env σ) (d : ResourceData) (w : World σ)
    (res : IPAddress) (σ1 : σ)
    (hupdate : m.IpamIPAddressesUpdate (strconv.ParseInt d.Id).1
        (updateData d (m.getNestedTagListFromResourceDataSet d.tags w.remote).1.1)
        (m.getNestedTagListFromResourceDataSet d.tags w.remote).2 = (Except.ok res, σ1)) :
    resourceNetboxIPAddressUpdate m d w =
      resourceNetboxIPAddressRead m d
        ⟨σ1, w.calls ++ [Call.update (strconv.ParseInt d.Id).1
          (updateData d (m.getNestedTagListFromResourceDataSet d.tags w.remote).1.1)]⟩ := by
  unfold resourceNetboxIPAddressUpdate
  simp only [hupdate]

/-- A record just stored or replaced at the head of the store is the one found for its id. -/
theorem lookup_head (n id : Int) (data : WritableIPAddress) (rows : List IPAddress) :
    Store.lookup ⟨n, storeRecord id data :: rows⟩ id = some (storeRecord id data) := by
  simp [Store.lookup, storeRecord]

/-- The faithful store answers an update of the record at its head with the new record and
replaces every record of that id. -/
theorem faithfulStore_update_head (n id : Int) (data data2 : WritableIPAddress)
    (rows : List IPAddress) :
    faithfulStore.IpamIPAddressesUpdate id data2 ⟨n, storeRecord id data :: rows⟩ =
      (Except.ok (storeRecord id data2),
        ⟨n, storeRecord id data2 ::
          rows.map (fun r => if r.ID = id then storeRecord id data2 else r)⟩) := by
  show (match Store.lookup ⟨n, storeRecord id data :: rows⟩ id with
    | some _ => _
    | none => _) = _
  rw [lookup_head]
  simp [storeRecord]

/-- The faithful store answers a read of the record at its head with that record. -/
theorem faithfulStore_read_head (n id : Int) (data : WritableIPAddress)
    (rows : List IPAddress) :
    faithfulStore.IpamIPAddressesRead id ⟨n, storeRecord id data :: rows⟩ =
      (Except.ok (storeRecord id data), ⟨n, storeRecord id data :: rows⟩) := by
  show (match Store.lookup ⟨n, storeRecord id data :: rows⟩ id with
    | some r => _
    | none => _) = _
  rw [lookup_head]

/-- The sorted listing of a tag set has exactly the elements of the set. -/
theorem mem_sortedNames (S : Finset String) (a : String) : a ∈ sortedNames S ↔ a ∈ S := by
  rcases S with ⟨val, nodup⟩
  induction val using Quot.ind with
  | _ l =>
    show a ∈ l.insertionSort (fun a b => a ≤ b) ↔ a ∈ l
    exact (List.perm_insertionSort _ l).mem_iff

/-- The names of the references the faithful store resolves a tag set to are the set again. -/
theorem resolved_names (S : Finset String) (s : Store) :
    ((faithfulStore.getNestedTagListFromResourceDataSet S s).1.1.map
      (fun t => t.Name)).toFinset = S := by
  ext a
  simp [faithfulStore, mem_sortedNames]

/-- The assigned-object id of an update request: the interface id unless it is unset or 0. -/
theorem updateData_binding (d : ResourceData) (tags : List NestedTag) :
    (updateData d tags).AssignedObjectID =
      if d.interface_id = some 0 then none else d.interface_id := by
  unfold updateData ResourceData.GetOk_interface_id int64ToPtr
  cases hi : d.interface_id with
  | none => simp
  | some v =>
    by_cases hv : v = 0
    · subst hv; simp
    · simp [hv]

/-- Read against a faithful store whose newest record is the one the identifier names: every
attribute is read from that record except role, which is removed when the record has no role and
keeps the value the state had when it has one. -/
theorem faithfulStore_read_exec (d : ResourceData) (n id : Int) (data : WritableIPAddress)
    (rows : List IPAddress) (calls : List Call)
    (hparse : strconv.ParseInt d.Id = (id, none)) :
    resourceNetboxIPAddressRead faithfulStore d ⟨⟨n, storeRecord id data :: rows⟩, calls⟩ =
      ⟨Outcome.returned none,
        { Id := d.Id
          ip_address := data.Address
          interface_id := data.AssignedObjectID
          role := if data.Role = "" then "" else d.role
          dns_name := data.DNSName
          description := data.Description
          status := data.Status
          tags := (data.Tags.map (fun t => t.Name)).toFinset },
        ⟨⟨n, storeRecord id data :: rows⟩, calls ++ [Call.read id]⟩⟩ := by
  have h := read_ok faithfulStore d ⟨⟨n, storeRecord id data :: rows⟩, calls⟩
    (storeRecord id data) ⟨data.Status, data.Status⟩ ⟨n, storeRecord id data :: rows⟩
    (by
      simp only [hparse]
      exact faithfulStore_read_head _ _ _ _)
    rfl
  simp only [hparse] at h
  rw [h]
  have hb : (storeRecord id data).AssignedObject.map (fun o => o.ID) = data.AssignedObjectID := by
    unfold storeRecord
    cases data.AssignedObjectID <;> rfl
  have hr : (if (storeRecord id data).Role = none then "" else d.role) =
      (if data.Role = "" then "" else d.role) := by
    unfold storeRecord
    by_cases hrole : data.Role = "" <;> simp [hrole]
  rw [hb, hr]
  rfl

/-- Create against a faithful store, as one equation: it returns nil, the state holds the
decimal string of the fresh identifier and the attributes of the desired state, and the newest
record of the store is the one built from the update request. -/
theorem faithfulStore_create_exec (d : ResourceData) (s : Store) (calls : List Call)
    (hid : isInt64 s.nextID) :
    resourceNetboxIPAddressCreate faithfulStore d ⟨s, calls⟩ =
      ⟨Outcome.returned none,
        { Id := strconv.FormatInt s.nextID
          ip_address := d.ip_address
          interface_id := if d.interface_id = some 0 then none else d.interface_id
          role := d.role
          dns_name := d.dns_name
          description := d.description
          status := d.status
          tags := d.tags },
        ⟨⟨s.nextID + 1,
          storeRecord s.nextID (updateData { d with Id := strconv.FormatInt s.nextID }
            (faithfulStore.getNestedTagListFromResourceDataSet d.tags s).1.1) ::
            s.rows.map (fun r => if r.ID = s.nextID then
              storeRecord s.nextID (updateData { d with Id := strconv.FormatInt s.nextID }
                (faithfulStore.getNestedTagListFromResourceDataSet d.tags s).1.1) else r)⟩,
          calls ++ [Call.create
              (createData d (faithfulStore.getNestedTagListFromResourceDataSet d.tags s).1.1)] ++
            [Call.update s.nextID (updateData { d with Id := strconv.FormatInt s.nextID }
              (faithfulStore.getNestedTagListFromResourceDataSet d.tags s).1.1)] ++
            [Call.read s.nextID]⟩⟩ := by
  have hparse := strconv.ParseInt_FormatInt s.nextID hid
  have htags := resolved_names d.tags s
  have h1 : resourceNetboxIPAddressCreate faithfulStore d ⟨s, calls⟩ =
      resourceNetboxIPAddressUpdate faithfulStore { d with Id := strconv.FormatInt s.nextID }
        ⟨⟨s.nextID + 1, storeRecord s.nextID
            (createData d (faithfulStore.getNestedTagListFromResourceDataSet d.tags s).1.1) ::
            s.rows⟩,
          calls ++ [Call.create
            (createData d (faithfulStore.getNestedTagListFromResourceDataSet d.tags s).1.1)]⟩ :=
    create_ok faithfulStore d ⟨s, calls⟩
      (storeRecord s.nextID
        (createData d (faithfulStore.getNestedTagListFromResourceDataSet d.tags s).1.1))
      ⟨s.nextID + 1, storeRecord s.nextID
        (createData d (faithfulStore.getNestedTagListFromResourceDataSet d.tags s).1.1) ::
        s.rows⟩ rfl
  have h2 := update_ok faithfulStore { d with Id := strconv.FormatInt s.nextID }
    ⟨⟨s.nextID + 1, storeRecord s.nextID
        (createData d (faithfulStore.getNestedTagListFromResourceDataSet d.tags s).1.1) ::
        s.rows⟩,
      calls ++ [Call.create
        (createData d (faithfulStore.getNestedTagListFromResourceDataSet d.tags s).1.1)]⟩
    (storeRecord s.nextID (updateData { d with Id := strconv.FormatInt s.nextID }
      (faithfulStore.getNestedTagListFromResourceDataSet d.tags s).1.1))
    ⟨s.nextID + 1, storeRecord s.nextID (updateData { d with Id := strconv.FormatInt s.nextID }
        (faithfulStore.getNestedTagListFromResourceDataSet d.tags s).1.1) ::
      s.rows.map (fun r => if r.ID = s.nextID then
        storeRecord s.nextID (updateData { d with Id := strconv.FormatInt s.nextID }
          (faithfulStore.getNestedTagListFromResourceDataSet d.tags s).1.1) else r)⟩
    (by
      simp only [hparse]
      exact faithfulStore_update_head _ _ _ _ _)
  simp only [hparse] at h2
  have h3 := faithfulStore_read_exec { d with Id := strconv.FormatInt s.nextID }
    (s.nextID + 1) s.nextID
    (updateData { d with Id := strconv.FormatInt s.nextID }
      (faithfulStore.getNestedTagListFromResourceDataSet d.tags s).1.1)
    (s.rows.map (fun r => if r.ID = s.nextID then
      storeRecord s.nextID (updateData { d with Id := strconv.FormatInt s.nextID }
        (faithfulStore.getNestedTagListFromResourceDataSet d.tags s).1.1) else r))
    (calls ++ [Call.create
        (createData d (faithfulStore.getNestedTagListFromResourceDataSet d.tags s).1.1)] ++
      [Call.update s.nextID (updateData { d with Id := strconv.FormatInt s.nextID }
        (faithfulStore.getNestedTagListFromResourceDataSet d.tags s).1.1)])
    hparse
  rw [h1, h2]
  refine h3.trans ?_
  rw [updateData_binding]
  have hrole : (if (updateData { d with Id := strconv.FormatInt s.nextID }
      (faithfulStore.getNestedTagListFromResourceDataSet d.tags s).1.1).Role = "" then ""
      else ({ d with Id := strconv.FormatInt s.nextID } : ResourceData).role) = d.role := by
    show (if d.role = "" then "" else d.role) = d.role
    by_cases h : d.role = "" <;> simp [h]
  rw [hrole]
  simp only [updateData, htags]

/-- Read by identifier after Create against a faithful store, as one equation: starting from a
state that holds only the identifier, every attribute of the desired state is read back except
role, which stays empty. -/
theorem faithfulStore_read_back (d : ResourceData) (s : Store) (calls : List Call)
    (hid : isInt64 s.nextID) :
    resourceNetboxIPAddressRead faithfulStore
        (blankData (resourceNetboxIPAddressCreate faithfulStore d ⟨s, calls⟩).d.Id)
        (resourceNetboxIPAddressCreate faithfulStore d ⟨s, calls⟩).w =
      ⟨Outcome.returned none,
        { Id := strconv.FormatInt s.nextID
          ip_address := d.ip_address
          interface_id := if d.interface_id = some 0 then none else d.interface_id
          role := ""
          dns_name := d.dns_name
          description := d.description
          status := d.status
          tags := d.tags },
        ⟨(resourceNetboxIPAddressCreate faithfulStore d ⟨s, calls⟩).w.remote,
          (resourceNetboxIPAddressCreate faithfulStore d ⟨s, calls⟩).w.calls ++
            [Call.read s.nextID]⟩⟩ := by
  have hparse := strconv.ParseInt_FormatInt s.nextID hid
  have htags := resolved_names d.tags s
  rw [faithfulStore_create_exec d s calls hid]
  have h := faithfulStore_read_exec (blankData (strconv.FormatInt s.nextID))
    (s.nextID + 1) s.nextID
    (updateData { d with Id := strconv.FormatInt s.nextID }
      (faithfulStore.getNestedTagListFromResourceDataSet d.tags s).1.1)
    (s.rows.map (fun r => if r.ID = s.nextID then
      storeRecord s.nextID (updateData { d with Id := strconv.FormatInt s.nextID }
        (faithfulStore.getNestedTagListFromResourceDataSet d.tags s).1.1) else r))
    (calls ++ [Call.create
        (createData d (faithfulStore.getNestedTagListFromResourceDataSet d.tags s).1.1)] ++
      [Call.update s.nextID (updateData { d with Id := strconv.FormatInt s.nextID }
        (faithfulStore.getNestedTagListFromResourceDataSet d.tags s).1.1)] ++
      [Call.read s.nextID])
    hparse
  refine h.trans ?_
  rw [updateData_binding]
  simp only [updateData, htags, blankData, ite_self]

/-- Read does not consult the tag helper. -/
theorem read_dropTagError {σ : Type} (m : Env σ) (d : ResourceData) (w : World σ) :
    resourceNetboxIPAddressRead (dropTagError m) d w = resourceNetboxIPAddressRead m d w := rfl

/-- Update runs the same whether or not the tag helper reports an error. -/
theorem update_dropTagError {σ : Type} (m : Env σ) (d : ResourceData) (w : World σ) :
    resourceNetboxIPAddressUpdate (dropTagError m) d w = resourceNetboxIPAddressUpdate m d w := by
  unfold resourceNetboxIPAddressUpdate
  simp only [read_dropTagError]
  rfl

/-- Create runs the same whether or not the tag helper reports an error. -/
theorem create_dropTagError {σ : Type} (m : Env σ) (d : ResourceData) (w : World σ) :
    resourceNetboxIPAddressCreate (dropTagError m) d w = resourceNetboxIPAddressCreate m d w := by
  unfold resourceNetboxIPAddressCreate
  simp only [update_dropTagError]
  rfl

/-! ## The claims -/

/-- Claim C1. When the remote read for the identifier of the state fails with an API error whose
response is a client response with status code 404, Read returns nil, sets the identifier to the
empty string and leaves every attribute (ip_address, status, role, description, dns_name,
interface_id, tags) as it was; the read is the only request issued. -/
theorem read_not_found_clears_identifier {σ : Type} (m : Env σ) (d : ResourceData) (w : World σ)
    (a : APIError) (σ1 : σ)
    (hread : m.IpamIPAddressesRead (strconv.ParseInt d.Id).1 w.remote =
      (Except.error (GoError.api a), σ1))
    (h404 : a.Response = Response.clientResponse 404) :
    resourceNetboxIPAddressRead m d w =
      ⟨Outcome.returned none,
        { Id := ""
          ip_address := d.ip_address
          interface_id := d.interface_id
          role := d.role
          dns_name := d.dns_name
          description := d.description
          status := d.status
          tags := d.tags },
        ⟨σ1, w.calls ++ [Call.read (strconv.ParseInt d.Id).1]⟩⟩ := by
  unfold resourceNetboxIPAddressRead
  simp only [hread, classifyReadError, errorsAs, h404, if_true]

/-- Witness for C1: the state with identifier "7" against an empty faithful store. -/
theorem read_not_found_clears_identifier_witness :
    faithfulStore.IpamIPAddressesRead (strconv.ParseInt "7").1 (⟨1, []⟩ : Store) =
      (Except.error (GoError.api ⟨"unknown error", Response.clientResponse 404, 404⟩), ⟨1, []⟩) ∧
    resourceNetboxIPAddressRead faithfulStore { exampleData with Id := "7" } ⟨⟨1, []⟩, []⟩ =
      ⟨Outcome.returned none,
        { Id := ""
          ip_address := "10.0.0.5/24"
          interface_id := none
          role := ""
          dns_name := "host.example.org"
          description := "uplink"
          status := "active"
          tags := {"prod", "core"} },
        ⟨⟨1, []⟩, [] ++ [Call.read (strconv.ParseInt "7").1]⟩⟩ :=
  ⟨rfl, read_not_found_clears_identifier faithfulStore { exampleData with Id := "7" }
    ⟨⟨1, []⟩, []⟩ ⟨"unknown error", Response.clientResponse 404, 404⟩ ⟨1, []⟩ rfl rfl⟩

/-- Claim C2, at an input where it fails: the tag helper returns an error, yet Create returns nil
after issuing the create, the update and the read, and Update returns nil after issuing the
update and the read. -/
theorem tag_error_does_not_stop_write :
    (resourceNetboxIPAddressCreate
        (scripted (Except.ok exampleRecord) (Except.ok exampleRecord) (Except.ok exampleRecord)
          none ([], some (GoError.plain "tag lookup failed")))
        exampleData ⟨(), []⟩).result = Outcome.returned none ∧
    (resourceNetboxIPAddressCreate
        (scripted (Except.ok exampleRecord) (Except.ok exampleRecord) (Except.ok exampleRecord)
          none ([], some (GoError.plain "tag lookup failed")))
        exampleData ⟨(), []⟩).w.calls =
      [Call.create (createData exampleData []),
       Call.update 7 (updateData exampleData []),
       Call.read 7] ∧
    (resourceNetboxIPAddressUpdate
        (scripted (Except.ok exampleRecord) (Except.ok exampleRecord) (Except.ok exampleRecord)
          none ([], some (GoError.plain "tag lookup failed")))
        { exampleData with Id := "7" } ⟨(), []⟩).result = Outcome.returned none ∧
    (resourceNetboxIPAddressUpdate
        (scripted (Except.ok exampleRecord) (Except.ok exampleRecord) (Except.ok exampleRecord)
          none ([], some (GoError.plain "tag lookup failed")))
        { exampleData with Id := "7" } ⟨(), []⟩).w.calls =
      [Call.update 7 (updateData exampleData []), Call.read 7] := by
  decide

/-- Claim C2 as amended. When the tag helper returns an error next to a tag list, Create and
Update discard the error: Create still issues the remote create and Update still issues the remote
update, each carrying the tag list that came with the error, and both run exactly as they do when
the helper reports no error. -/
theorem tag_error_is_discarded {σ : Type} (m : Env σ) (d : ResourceData) (w : World σ)
    (tags : List NestedTag) (err : GoError) (σ1 : σ)
    (htags : m.getNestedTagListFromResourceDataSet d.tags w.remote = ((tags, some err), σ1)) :
    (∃ rest, (resourceNetboxIPAddressCreate m d w).w.calls =
      w.calls ++ Call.create (createData d tags) :: rest) ∧
    (∃ rest, (resourceNetboxIPAddressUpdate m d w).w.calls =
      w.calls ++ Call.update (strconv.ParseInt d.Id).1 (updateData d tags) :: rest) ∧
    resourceNetboxIPAddressCreate m d w = resourceNetboxIPAddressCreate (dropTagError m) d w ∧
    resourceNetboxIPAddressUpdate m d w = resourceNetboxIPAddressUpdate (dropTagError m) d w := by
  have hc := create_calls m d w
  have hu := update_calls m d w
  rw [htags] at hc hu
  exact ⟨hc, hu, (create_dropTagError m d w).symm, (update_dropTagError m d w).symm⟩

/-- Witness for C2 as amended: a tag helper that fails with an empty list. -/
theorem tag_error_is_discarded_witness :
    (scripted (Except.ok exampleRecord) (Except.ok exampleRecord) (Except.ok exampleRecord)
        none ([], some (GoError.plain "tag lookup failed"))).getNestedTagListFromResourceDataSet
      exampleData.tags () = (([], some (GoError.plain "tag lookup failed")), ()) ∧
    (∃ rest, (resourceNetboxIPAddressCreate
        (scripted (Except.ok exampleRecord) (Except.ok exampleRecord) (Except.ok exampleRecord)
          none ([], some (GoError.plain "tag lookup failed")))
        exampleData ⟨(), []⟩).w.calls =
      [] ++ Call.create (createData exampleData []) :: rest) ∧
    (∃ rest, (resourceNetboxIPAddressUpdate
        (scripted (Except.ok exampleRecord) (Except.ok exampleRecord) (Except.ok exampleRecord)
          none ([], some (GoError.plain "tag lookup failed")))
        exampleData ⟨(), []⟩).w.calls =
      [] ++ Call.update (strconv.ParseInt exampleData.Id).1 (updateData exampleData []) :: rest) :=
  ⟨rfl, (tag_error_is_discarded
    (scripted (Except.ok exampleRecord) (Except.ok exampleRecord) (Except.ok exampleRecord)
      none ([], some (GoError.plain "tag lookup failed")))
    exampleData ⟨(), []⟩ [] (GoError.plain "tag lookup failed") () rfl).1,
   (tag_error_is_discarded
    (scripted (Except.ok exampleRecord) (Except.ok exampleRecord) (Except.ok exampleRecord)
      none ([], some (GoError.plain "tag lookup failed")))
    exampleData ⟨(), []⟩ [] (GoError.plain "tag lookup failed") () rfl).2.1⟩

/-- Claim C3, at inputs where it fails. With the identifier "abc", against an empty faithful
store Read sends a read to id 0 and returns nil; against a store that holds a record with id 0,
Read, Update and Delete each return nil after sending their request to id 0, and Delete removes
that record. With the out-of-range identifier "9223372036854775808" Read sends a read to the
largest `int64`. -/
theorem malformed_identifier_reaches_remote :
    (strconv.ParseInt "abc").2 = some strconv.NumError.ErrSyntax ∧
    (strconv.ParseInt "9223372036854775808").2 = some strconv.NumError.ErrRange ∧
    (resourceNetboxIPAddressRead faithfulStore { exampleData with Id := "9223372036854775808" }
        ⟨⟨1, []⟩, []⟩).w.calls = [Call.read 9223372036854775807] ∧
    (resourceNetboxIPAddressRead faithfulStore { exampleData with Id := "abc" }
        ⟨⟨1, []⟩, []⟩).result = Outcome.returned none ∧
    (resourceNetboxIPAddressRead faithfulStore { exampleData with Id := "abc" }
        ⟨⟨1, []⟩, []⟩).w.calls = [Call.read 0] ∧
    (resourceNetboxIPAddressRead faithfulStore { exampleData with Id := "abc" }
        ⟨⟨1, [{ exampleRecord with ID := 0 }]⟩, []⟩).result = Outcome.returned none ∧
    (resourceNetboxIPAddressRead faithfulStore { exampleData with Id := "abc" }
        ⟨⟨1, [{ exampleRecord with ID := 0 }]⟩, []⟩).w.calls = [Call.read 0] ∧
    (resourceNetboxIPAddressUpdate faithfulStore { exampleData with Id := "abc", tags := ∅ }
        ⟨⟨1, [{ exampleRecord with ID := 0 }]⟩, []⟩).result = Outcome.returned none ∧
    (resourceNetboxIPAddressUpdate faithfulStore { exampleData with Id := "abc", tags := ∅ }
        ⟨⟨1, [{ exampleRecord with ID := 0 }]⟩, []⟩).w.calls =
      [Call.update 0 (updateData { exampleData with tags := ∅ } []), Call.read 0] ∧
    (resourceNetboxIPAddressDelete faithfulStore { exampleData with Id := "abc" }
        ⟨⟨1, [{ exampleRecord with ID := 0 }]⟩, []⟩).result = Outcome.returned none ∧
    (resourceNetboxIPAddressDelete faithfulStore { exampleData with Id := "abc" }
        ⟨⟨1, [{ exampleRecord with ID := 0 }]⟩, []⟩).w.calls = [Call.delete 0] ∧
    (resourceNetboxIPAddressDelete faithfulStore { exampleData with Id := "abc" }
        ⟨⟨1, [{ exampleRecord with ID := 0 }]⟩, []⟩).w.remote = ⟨1, []⟩ := by
  decide

/-- Claim C3 as amended. For a state whose identifier does not parse, the parse error is
discarded: Read, Update and Delete each issue their request all the same, addressed to the value
`ParseInt` returns next to the error, which is 0 for a syntax error and the nearest `int64` bound
for a number out of range. -/
theorem malformed_identifier_is_not_checked {σ : Type} (m : Env σ) (d : ResourceData)
    (w : World σ) (perr : strconv.NumError)
    (hbad : (strconv.ParseInt d.Id).2 = some perr) :
    (resourceNetboxIPAddressRead m d w).w.calls =
      w.calls ++ [Call.read (strconv.ParseInt d.Id).1] ∧
    (∃ data rest, (resourceNetboxIPAddressUpdate m d w).w.calls =
      w.calls ++ Call.update (strconv.ParseInt d.Id).1 data :: rest) ∧
    (resourceNetboxIPAddressDelete m d w).w.calls =
      w.calls ++ [Call.delete (strconv.ParseInt d.Id).1] ∧
    (perr = strconv.NumError.ErrSyntax → (strconv.ParseInt d.Id).1 = 0) ∧
    (perr = strconv.NumError.ErrRange →
      (strconv.ParseInt d.Id).1 = 2 ^ 63 - 1 ∨ (strconv.ParseInt d.Id).1 = -(2 ^ 63)) := by
  refine ⟨read_calls m d w, ?_, ?_, ?_, ?_⟩
  · obtain ⟨rest, h⟩ := update_calls m d w
    exact ⟨_, rest, h⟩
  · unfold resourceNetboxIPAddressDelete
    simp only
    split <;> rfl
  · intro hp
    exact (strconv.ParseInt_error_value d.Id).1 (by rw [hbad, hp])
  · intro hp
    exact (strconv.ParseInt_error_value d.Id).2 (by rw [hbad, hp])

/-- Witness for C3 as amended: the empty identifier. -/
theorem malformed_identifier_is_not_checked_witness :
    (strconv.ParseInt "").2 = some strconv.NumError.ErrSyntax ∧
    (resourceNetboxIPAddressRead faithfulStore exampleData ⟨⟨1, []⟩, []⟩).w.calls =
      [] ++ [Call.read (strconv.ParseInt "").1] ∧
    (strconv.ParseInt "").1 = 0 :=
  ⟨rfl,
    (malformed_identifier_is_not_checked faithfulStore exampleData ⟨⟨1, []⟩, []⟩
      strconv.NumError.ErrSyntax rfl).1,
    (malformed_identifier_is_not_checked faithfulStore exampleData ⟨⟨1, []⟩, []⟩
      strconv.NumError.ErrSyntax rfl).2.2.2.1 rfl⟩

/-- Claim C4, evaluated where the code departs from it. An API error with status 404 wrapped in
another error, and an API error whose response is not a client response, both make the error
branch of Read panic on a failed type assertion, where the claim says they are classified as
Other; Read then panics instead of returning the error. -/
theorem read_classification_panics :
    classifyReadError
      (GoError.wrapped "read failed" (GoError.api ⟨"op", Response.clientResponse 404, 404⟩)) =
        ReadErrorClass.Panic ∧
    classifyReadError (GoError.api ⟨"op", Response.other "EOF", 500⟩) = ReadErrorClass.Panic ∧
    (resourceNetboxIPAddressRead
      (scripted (Except.ok exampleRecord)
        (Except.error (GoError.wrapped "read failed"
          (GoError.api ⟨"op", Response.clientResponse 404, 404⟩)))
        (Except.ok exampleRecord) none ([], none))
      { exampleData with Id := "7" } ⟨(), []⟩).result = Outcome.panicked ∧
    (resourceNetboxIPAddressRead
      (scripted (Except.ok exampleRecord)
        (Except.error (GoError.api ⟨"op", Response.other "EOF", 500⟩))
        (Except.ok exampleRecord) none ([], none))
      { exampleData with Id := "7" } ⟨(), []⟩).result = Outcome.panicked := by
  refine ⟨rfl, rfl, rfl, rfl⟩

/-- Claim C5. Fatal failures come back as they are. (i) A failed remote read whose error holds no
API error in its chain, or is itself an API error with a client response of status other than
404, makes Read return exactly that error. (ii) A failed remote create, update or delete makes
Create, Update or Delete return exactly that error, whatever it is. In each case the resource data
(identifier included) is unchanged and the failed request is the last one issued. -/
theorem fatal_errors_propagate {σ : Type} (m : Env σ) (d : ResourceData) (w : World σ)
    (e : GoError) (σ1 : σ) :
    (m.IpamIPAddressesRead (strconv.ParseInt d.Id).1 w.remote = (Except.error e, σ1) →
      (errorsAs e = none ∨
        ∃ a code, e = GoError.api a ∧ a.Response = Response.clientResponse code ∧ code ≠ 404) →
      resourceNetboxIPAddressRead m d w =
        ⟨Outcome.returned (some e), d,
          ⟨σ1, w.calls ++ [Call.read (strconv.ParseInt d.Id).1]⟩⟩) ∧
    (m.IpamIPAddressesCreate
        (createData d (m.getNestedTagListFromResourceDataSet d.tags w.remote).1.1)
        (m.getNestedTagListFromResourceDataSet d.tags w.remote).2 = (Except.error e, σ1) →
      resourceNetboxIPAddressCreate m d w =
        ⟨Outcome.returned (some e), d,
          ⟨σ1, w.calls ++ [Call.create
            (createData d (m.getNestedTagListFromResourceDataSet d.tags w.remote).1.1)]⟩⟩) ∧
    (m.IpamIPAddressesUpdate (strconv.ParseInt d.Id).1
        (updateData d (m.getNestedTagListFromResourceDataSet d.tags w.remote).1.1)
        (m.getNestedTagListFromResourceDataSet d.tags w.remote).2 = (Except.error e, σ1) →
      resourceNetboxIPAddressUpdate m d w =
        ⟨Outcome.returned (some e), d,
          ⟨σ1, w.calls ++ [Call.update (strconv.ParseInt d.Id).1
            (updateData d (m.getNestedTagListFromResourceDataSet d.tags w.remote).1.1)]⟩⟩) ∧
    (m.IpamIPAddressesDelete (strconv.ParseInt d.Id).1 w.remote = (some e, σ1) →
      resourceNetboxIPAddressDelete m d w =
        ⟨Outcome.returned (some e), d,
          ⟨σ1, w.calls ++ [Call.delete (strconv.ParseInt d.Id).1]⟩⟩) := by
  refine ⟨?_, ?_, ?_, ?_⟩
  · intro hread hshape
    unfold resourceNetboxIPAddressRead
    rcases hshape with hnone | ⟨a, code, rfl, hresp, hcode⟩
    · simp only [hread, classifyReadError, hnone]
    · simp only [hread, classifyReadError, errorsAs, hresp, hcode, if_false]
  · intro hcreate
    unfold resourceNetboxIPAddressCreate
    simp only [hcreate]
  · intro hupdate
    unfold resourceNetboxIPAddressUpdate
    simp only [hupdate]
  · intro hdelete
    unfold resourceNetboxIPAddressDelete
    simp only [hdelete]

/-- Witness for C5: a remote whose read, create and update fail with a transport error and whose
delete fails with a not-found API error. -/
theorem fatal_errors_propagate_witness :
    resourceNetboxIPAddressRead
        (scripted (Except.error (GoError.plain "connection refused"))
          (Except.error (GoError.plain "connection refused"))
          (Except.error (GoError.plain "connection refused")) (some notFound) ([], none))
        { exampleData with Id := "7" } ⟨(), []⟩ =
      ⟨Outcome.returned (some (GoError.plain "connection refused")),
        { exampleData with Id := "7" }, ⟨(), [] ++ [Call.read (strconv.ParseInt "7").1]⟩⟩ ∧
    resourceNetboxIPAddressCreate
        (scripted (Except.error (GoError.plain "connection refused"))
          (Except.error (GoError.plain "connection refused"))
          (Except.error (GoError.plain "connection refused")) (some notFound) ([], none))
        exampleData ⟨(), []⟩ =
      ⟨Outcome.returned (some (GoError.plain "connection refused")),
        exampleData, ⟨(), [] ++ [Call.create (createData exampleData [])]⟩⟩ ∧
    resourceNetboxIPAddressUpdate
        (scripted (Except.error notFound) (Except.error notFound) (Except.error notFound)
          (some notFound) ([], none))
        { exampleData with Id := "7" } ⟨(), []⟩ =
      ⟨Outcome.returned (some notFound),
        { exampleData with Id := "7" },
        ⟨(), [] ++ [Call.update (strconv.ParseInt "7").1
          (updateData { exampleData with Id := "7" } [])]⟩⟩ ∧
    resourceNetboxIPAddressDelete
        (scripted (Except.error notFound) (Except.error notFound) (Except.error notFound)
          (some notFound) ([], none))
        { exampleData with Id := "7" } ⟨(), []⟩ =
      ⟨Outcome.returned (some notFound),
        { exampleData with Id := "7" }, ⟨(), [] ++ [Call.delete (strconv.ParseInt "7").1]⟩⟩ :=
  ⟨(fatal_errors_propagate
      (scripted (Except.error (GoError.plain "connection refused"))
        (Except.error (GoError.plain "connection refused"))
        (Except.error (GoError.plain "connection refused")) (some notFound) ([], none))
      { exampleData with Id := "7" } ⟨(), []⟩ (GoError.plain "connection refused") ()).1
      rfl (Or.inl rfl),
    (fatal_errors_propagate
      (scripted (Except.error (GoError.plain "connection refused"))
        (Except.error (GoError.plain "connection refused"))
        (Except.error (GoError.plain "connection refused")) (some notFound) ([], none))
      exampleData ⟨(), []⟩ (GoError.plain "connection refused") ()).2.1 rfl,
    (fatal_errors_propagate
      (scripted (Except.error notFound) (Except.error notFound) (Except.error notFound)
        (some notFound) ([], none))
      { exampleData with Id := "7" } ⟨(), []⟩ notFound ()).2.2.1 rfl,
    (fatal_errors_propagate
      (scripted (Except.error notFound) (Except.error notFound) (Except.error notFound)
        (some notFound) ([], none))
      { exampleData with Id := "7" } ⟨(), []⟩ notFound ()).2.2.2 rfl⟩

/-- Claim C6. Two-phase create. When the remote create succeeds with a record whose id `n` is an
`int64`: the creation request carries the address, role, description, dns_name and status of the
desired state and the tag list the helper returned for its tags, with no assigned-object type and
no assigned-object id, whether or not interface_id is set; the identifier becomes the decimal
string of `n`, which parses back to `n`; what Create returns is what Update returns on that
state; and the request after the create is an update addressed to `n`. -/
theorem create_is_two_phase {σ : Type} (m : Env σ) (d : ResourceData) (w : World σ)
    (res : IPAddress) (σ1 : σ)
    (hcreate : m.IpamIPAddressesCreate
        (createData d (m.getNestedTagListFromResourceDataSet d.tags w.remote).1.1)
        (m.getNestedTagListFromResourceDataSet d.tags w.remote).2 = (Except.ok res, σ1))
    (hid : isInt64 res.ID) :
    ∃ data data2 rest,
      data.Address = d.ip_address ∧ data.Role = d.role ∧ data.Description = d.description ∧
      data.DNSName = d.dns_name ∧ data.Status = d.status ∧
      data.Tags = (m.getNestedTagListFromResourceDataSet d.tags w.remote).1.1 ∧
      data.AssignedObjectType = "" ∧ data.AssignedObjectID = none ∧
      resourceNetboxIPAddressCreate m d w =
        resourceNetboxIPAddressUpdate m { d with Id := strconv.FormatInt res.ID }
          ⟨σ1, w.calls ++ [Call.create data]⟩ ∧
      strconv.ParseInt (strconv.FormatInt res.ID) = (res.ID, none) ∧
      (resourceNetboxIPAddressCreate m d w).w.calls =
        w.calls ++ Call.create data :: Call.update res.ID data2 :: rest := by
  have hparse := strconv.ParseInt_FormatInt res.ID hid
  have hrun := create_ok m d w res σ1 hcreate
  obtain ⟨rest, hcalls⟩ := update_calls m { d with Id := strconv.FormatInt res.ID }
    ⟨σ1, w.calls ++ [Call.create
      (createData d (m.getNestedTagListFromResourceDataSet d.tags w.remote).1.1)]⟩
  refine ⟨createData d (m.getNestedTagListFromResourceDataSet d.tags w.remote).1.1,
    updateData { d with Id := strconv.FormatInt res.ID }
      (m.getNestedTagListFromResourceDataSet d.tags σ1).1.1, rest,
    rfl, rfl, rfl, rfl, rfl, rfl, rfl, rfl, hrun, hparse, ?_⟩
  rw [hrun, hcalls]
  simp only [hparse, List.append_assoc, List.singleton_append]

/-- Witness for C6: a desired state with an interface binding against a faithful store whose
next identifier is 7. -/
theorem create_is_two_phase_witness :
    isInt64 7 ∧
    ∃ data data2 rest,
      data.Address = "10.0.0.5/24" ∧ data.Role = "" ∧ data.Description = "uplink" ∧
      data.DNSName = "host.example.org" ∧ data.Status = "active" ∧
      data.Tags = (faithfulStore.getNestedTagListFromResourceDataSet {"prod", "core"}
        (⟨7, []⟩ : Store)).1.1 ∧
      data.AssignedObjectType = "" ∧ data.AssignedObjectID = none ∧
      resourceNetboxIPAddressCreate faithfulStore { exampleData with interface_id := some 42 }
          ⟨⟨7, []⟩, []⟩ =
        resourceNetboxIPAddressUpdate faithfulStore
          { { exampleData with interface_id := some 42 } with Id := strconv.FormatInt 7 }
          ⟨⟨8, [storeRecord 7 (createData { exampleData with interface_id := some 42 }
            (faithfulStore.getNestedTagListFromResourceDataSet {"prod", "core"}
              (⟨7, []⟩ : Store)).1.1)]⟩, [] ++ [Call.create data]⟩ ∧
      strconv.ParseInt (strconv.FormatInt 7) = (7, none) ∧
      (resourceNetboxIPAddressCreate faithfulStore { exampleData with interface_id := some 42 }
          ⟨⟨7, []⟩, []⟩).w.calls =
        [] ++ Call.create data :: Call.update 7 data2 :: rest :=
  ⟨by decide, create_is_two_phase faithfulStore { exampleData with interface_id := some 42 }
    ⟨⟨7, []⟩, []⟩ _ _ rfl (by decide)⟩

/-- Claim C7, at the input where it fails: with interface_id set to 0 the update request carries
no assigned-object type and no assigned-object id, although interface_id is present. -/
theorem update_payload_zero_interface_unbound :
    (resourceNetboxIPAddressUpdate
      (scripted (Except.ok exampleRecord) (Except.ok exampleRecord) (Except.ok exampleRecord)
        none ([], none))
      { exampleData with Id := "7", interface_id := some 0 } ⟨(), []⟩).w.calls =
      [Call.update 7
        { Address := "10.0.0.5/24"
          Role := ""
          Description := "uplink"
          DNSName := "host.example.org"
          Status := "active"
          Tags := []
          AssignedObjectType := ""
          AssignedObjectID := none },
       Call.read 7] := by
  decide

/-- Claim C7 as amended. The update request carries the address, role, description, dns_name and
status of the desired state; it carries the assigned object of type "virtualization.vminterface"
and id `n` exactly when interface_id is set to a non-zero `n`, and neither an assigned-object type
nor an assigned-object id when interface_id is unset or set to 0. -/
theorem update_payload {σ : Type} (m : Env σ) (d : ResourceData) (w : World σ) :
    ∃ data rest,
      (resourceNetboxIPAddressUpdate m d w).w.calls =
        w.calls ++ Call.update (strconv.ParseInt d.Id).1 data :: rest ∧
      data.Address = d.ip_address ∧ data.Role = d.role ∧ data.Description = d.description ∧
      data.DNSName = d.dns_name ∧ data.Status = d.status ∧
      (∀ n : Int, (data.AssignedObjectType = "virtualization.vminterface" ∧
          data.AssignedObjectID = some n) ↔ (d.interface_id = some n ∧ n ≠ 0)) ∧
      ((d.interface_id = none ∨ d.interface_id = some 0) ↔
        (data.AssignedObjectType = "" ∧ data.AssignedObjectID = none)) := by
  obtain ⟨rest, hcalls⟩ := update_calls m d w
  refine ⟨_, rest, hcalls, rfl, rfl, rfl, rfl, rfl, ?_, ?_⟩
  · intro n
    unfold updateData ResourceData.GetOk_interface_id int64ToPtr
    cases hi : d.interface_id with
    | none => simp
    | some v =>
      by_cases hv : v = 0
      · subst hv; simp
        exact fun h => h.symm
      · simp [hv]
        intro h; subst h; exact hv
  · unfold updateData ResourceData.GetOk_interface_id int64ToPtr
    cases hi : d.interface_id with
    | none => simp
    | some v =>
      by_cases hv : v = 0
      · subst hv; simp
      · simp [hv]

/-- Claim C8, evaluated where the code departs from it. The remote returns an object whose role
is "vip" while the state holds the role "loopback": Read returns nil and maps the address, the
status, the description, the DNS name, the tags and the interface binding, but the role of the
state is still "loopback", not the role of the object. An object without a status makes Read
panic. -/
theorem read_does_not_map_role :
    exampleRecord.Role = some ⟨"VIP", "vip"⟩ ∧
    (resourceNetboxIPAddressRead
        (scripted (Except.ok exampleRecord) (Except.ok exampleRecord) (Except.ok exampleRecord)
          none ([], none))
        { blankData "7" with role := "loopback" } ⟨(), []⟩).result = Outcome.returned none ∧
    (resourceNetboxIPAddressRead
        (scripted (Except.ok exampleRecord) (Except.ok exampleRecord) (Except.ok exampleRecord)
          none ([], none))
        { blankData "7" with role := "loopback" } ⟨(), []⟩).d =
      { Id := "7"
        ip_address := "10.0.0.5/24"
        interface_id := some 42
        role := "loopback"
        dns_name := "host.example.org"
        description := "uplink"
        status := "active"
        tags := {"core", "prod"} } ∧
    (resourceNetboxIPAddressRead
        (scripted (Except.ok exampleRecord) (Except.ok { exampleRecord with Status := none })
          (Except.ok exampleRecord) none ([], none))
        (blankData "7") ⟨(), []⟩).result = Outcome.panicked := by
  decide

/-- Claim C9, evaluated where the code departs from it. The desired state with role "vip" is
created in a faithful store whose next identifier is 7: Create returns nil and the store holds,
under the identifier, a record with role "vip"; Read on a state that holds only the identifier
Create left returns nil and reads back the address, the status, the description, the DNS name and
the tags of the desired state, but the role it leaves is empty, not "vip". -/
theorem round_trip_loses_role :
    (resourceNetboxIPAddressCreate faithfulStore { exampleData with role := "vip" }
        ⟨⟨7, []⟩, []⟩).result = Outcome.returned none ∧
    ((resourceNetboxIPAddressCreate faithfulStore { exampleData with role := "vip" }
        ⟨⟨7, []⟩, []⟩).w.remote.lookup 7).map (fun r => r.Role) =
      some (some ⟨"vip", "vip"⟩) ∧
    (resourceNetboxIPAddressRead faithfulStore
        (blankData (resourceNetboxIPAddressCreate faithfulStore { exampleData with role := "vip" }
          ⟨⟨7, []⟩, []⟩).d.Id)
        (resourceNetboxIPAddressCreate faithfulStore { exampleData with role := "vip" }
          ⟨⟨7, []⟩, []⟩).w).result = Outcome.returned none ∧
    (resourceNetboxIPAddressRead faithfulStore
        (blankData (resourceNetboxIPAddressCreate faithfulStore { exampleData with role := "vip" }
          ⟨⟨7, []⟩, []⟩).d.Id)
        (resourceNetboxIPAddressCreate faithfulStore { exampleData with role := "vip" }
          ⟨⟨7, []⟩, []⟩).w).d =
      { Id := strconv.FormatInt 7
        ip_address := "10.0.0.5/24"
        interface_id := none
        role := ""
        dns_name := "host.example.org"
        description := "uplink"
        status := "active"
        tags := {"prod", "core"} } := by
  have hc := faithfulStore_create_exec { exampleData with role := "vip" } ⟨7, []⟩ [] (by decide)
  have hr := faithfulStore_read_back { exampleData with role := "vip" } ⟨7, []⟩ [] (by decide)
  refine ⟨congrArg Exec.result hc, ?_, congrArg Exec.result hr, congrArg Exec.d hr⟩
  rw [hc]
  show (Store.lookup ⟨7 + 1, storeRecord 7 _ :: _⟩ 7).map _ = _
  rw [lookup_head]
  rfl

/-- Claim C10. The validator of the status attribute accepts a string exactly when it is one of
"active", "reserved", "deprecated", "dhcp", compared as they are (case matters, whatever the case
folding of the library does); and a desired state with any other status is rejected by the
validation that precedes Create: Create does not run, so no request is issued and the state,
identifier included, is as it was. -/
theorem status_enum_enforced {σ : Type} (IsCIDR : String → String → List String)
    (equalFold : String → String → Bool) (s : String) :
    (((resourceNetboxIPAddress IsCIDR equalFold : Resource σ).status_ValidateFunc s "status" = [])
      ↔ (s = "active" ∨ s = "reserved" ∨ s = "deprecated" ∨ s = "dhcp")) ∧
    (¬ (s = "active" ∨ s = "reserved" ∨ s = "deprecated" ∨ s = "dhcp") →
      ∀ (m : Env σ) (d : ResourceData) (w : World σ), d.status = s →
        ∃ diagnostics, diagnostics ≠ [] ∧
          validateThenCreate (resourceNetboxIPAddress IsCIDR equalFold) m d w =
            Applied.rejected diagnostics d w) := by
  have hiff : ((resourceNetboxIPAddress IsCIDR equalFold : Resource σ).status_ValidateFunc s
      "status" = []) ↔ (s = "active" ∨ s = "reserved" ∨ s = "deprecated" ∨ s = "dhcp") := by
    simp [resourceNetboxIPAddress, validation.StringInSlice]
    tauto
  refine ⟨hiff, ?_⟩
  intro hbad m d w hs
  have hne : (resourceNetboxIPAddress IsCIDR equalFold : Resource σ).status_ValidateFunc d.status
      "status" ≠ [] := by
    rw [hs]
    exact fun h => hbad (hiff.mp h)
  refine ⟨(resourceNetboxIPAddress IsCIDR equalFold : Resource σ).ip_address_ValidateFunc
      d.ip_address "ip_address" ++
    (resourceNetboxIPAddress IsCIDR equalFold : Resource σ).status_ValidateFunc d.status
      "status", ?_, ?_⟩
  · simp [hne]
  · unfold validateThenCreate
    simp [hne]

/-- Witness for C10: the status "bogus", and "Active" with a wrong case, against a validator for
the address that accepts everything and a case folding that equates everything. -/
theorem status_enum_enforced_witness :
    ((resourceNetboxIPAddress (fun _ _ => []) (fun _ _ => true) :
      Resource Store).status_ValidateFunc "Active" "status" ≠ []) ∧
    ∃ diagnostics, diagnostics ≠ [] ∧
      validateThenCreate (resourceNetboxIPAddress (fun _ _ => []) (fun _ _ => true)) faithfulStore
          { exampleData with status := "bogus" } ⟨⟨1, []⟩, []⟩ =
        Applied.rejected diagnostics { exampleData with status := "bogus" } ⟨⟨1, []⟩, []⟩ :=
  ⟨fun h => absurd ((status_enum_enforced (fun _ _ => []) (fun _ _ => true) "Active").1.mp h)
      (by decide),
    (status_enum_enforced (fun _ _ => []) (fun _ _ => true) "bogus").2 (by decide) faithfulStore
      { exampleData with status := "bogus" } ⟨⟨1, []⟩, []⟩ rfl⟩

end netbox
